import Mathlib

/-!
Verification of the `datatables_viewer` build script (`build_viewer.py`) and the
bootstrap logic it embeds in the generated `viewer.html`.

The development shallowly embeds:
* the browser's `JSON.parse`: a recursive-descent parser over the strict JSON
  grammar (`jsonParse`), and separately CPython's `json.loads` as used by the
  build-time validation (`json_loads_ok`), which additionally accepts the
  non-standard constants `NaN`, `Infinity` and `-Infinity`;
* the runtime bootstrap resolver (the `DOMContentLoaded` script inside the HTML
  template): `initApp`, `handleFile`, `loadPastedConfig`, and the auto-load
  fallback chain;
* the build-time assembler (`build()`): reading the stylesheet, the config file
  (with JSON validation), the ordered module bundle, and interpolating the HTML
  template.

File systems are modelled as association lists from path to content; the
rendering engine (`TableRenderer` construction plus its asynchronous `render`)
is an abstract function `Json → Except String Unit` returning the thrown or
rejected message on failure.
-/

/-- JSON values, as produced by the host JSON parser.  Numbers are kept in
parsed form: a signed integer part, the fraction digits, and the exponent. -/
inductive Json where
  | null
  | bool (b : Bool)
  | num (intPart : Int) (fracDigits : List Nat) (expVal : Int)
  | str (s : String)
  | arr (elems : List Json)
  | obj (fields : List (String × Json))
deriving Repr

/-- JSON whitespace: space, newline, tab, carriage return. -/
def isJsonWs (c : Char) : Bool :=
  c = ' ' || c = '\n' || c = '\t' || c = '\r'

/-- Drop leading JSON whitespace. -/
def skipWs : List Char → List Char
  | [] => []
  | c :: rest => if isJsonWs c then skipWs rest else c :: rest

/-- Decimal digit test. -/
def isDigitCh (c : Char) : Bool := '0' ≤ c && c ≤ '9'

/-- Value of a decimal digit character. -/
def digitVal (c : Char) : Nat := c.toNat - '0'.toNat

/-- Take a maximal run of decimal digits. -/
def takeDigits : List Char → List Nat × List Char
  | [] => ([], [])
  | c :: rest =>
    if isDigitCh c then
      let (ds, r) := takeDigits rest
      (digitVal c :: ds, r)
    else ([], c :: rest)

/-- Digits to the natural number they denote. -/
def digitsToNat (ds : List Nat) : Nat := ds.foldl (fun a d => a * 10 + d) 0

/-- Parse the optional fraction part (`.` followed by one or more digits). -/
def parseFrac : List Char → Option (List Nat × List Char)
  | '.' :: r =>
    match takeDigits r with
    | ([], _) => none
    | (ds, r2) => some (ds, r2)
  | s => some ([], s)

/-- Parse the optional exponent part (`e`/`E`, optional sign, digits). -/
def parseExp : List Char → Option (Int × List Char)
  | [] => some (0, [])
  | c :: r =>
    if c = 'e' || c = 'E' then
      let signAndRest : Int × List Char :=
        match r with
        | '+' :: rr => (1, rr)
        | '-' :: rr => (-1, rr)
        | _ => (1, r)
      match takeDigits signAndRest.2 with
      | ([], _) => none
      | (ds, r2) => some (signAndRest.1 * (digitsToNat ds : Int), r2)
    else some (0, c :: r)

/-- Parse a JSON number (the input starts at the optional minus sign).  The
integer part is `0` alone or a nonzero digit followed by digits, per the JSON
grammar. -/
def parseNumber (s : List Char) : Option (Json × List Char) :=
  let signAndRest : Bool × List Char :=
    match s with
    | '-' :: r => (true, r)
    | _ => (false, s)
  match signAndRest.2 with
  | [] => none
  | c :: r =>
    if c = '0' then do
      let (fd, s3) ← parseFrac r
      let (e, s4) ← parseExp s3
      some (.num 0 fd e, s4)
    else if isDigitCh c then do
      let (ds, r2) := takeDigits r
      let i : Nat := digitsToNat (digitVal c :: ds)
      let (fd, s3) ← parseFrac r2
      let (e, s4) ← parseExp s3
      some (.num (if signAndRest.1 then -(i : Int) else (i : Int)) fd e, s4)
    else none

/-- Numeric value of a hexadecimal digit character, via its code point
(48–57 are `0`–`9`, 97–102 are `a`–`f`, 65–70 are `A`–`F`). -/
def hexVal (c : Char) : Option Nat :=
  let n := c.toNat
  if 48 ≤ n && n ≤ 57 then some (n - 48)
  else if 97 ≤ n && n ≤ 102 then some (n - 87)
  else if 65 ≤ n && n ≤ 70 then some (n - 55)
  else none

/-- Parse the body of a JSON string after the opening quote, handling the JSON
escape sequences; control characters below U+0020 must be escaped. -/
def parseStringBody : Nat → List Char → List Char → Option (String × List Char)
  | 0, _, _ => none
  | Nat.succ f, acc, s =>
    match s with
    | [] => none
    | '\"' :: r => some (String.mk acc.reverse, r)
    | '\\' :: e :: r =>
      match e with
      | '\"' => parseStringBody f ('\"' :: acc) r
      | '\\' => parseStringBody f ('\\' :: acc) r
      | '/' => parseStringBody f ('/' :: acc) r
      | 'b' => parseStringBody f (Char.ofNat 8 :: acc) r
      | 'f' => parseStringBody f (Char.ofNat 12 :: acc) r
      | 'n' => parseStringBody f ('\n' :: acc) r
      | 'r' => parseStringBody f ('\r' :: acc) r
      | 't' => parseStringBody f ('\t' :: acc) r
      | 'u' =>
        match r with
        | a :: b :: c :: d :: r2 => do
          let ha ← hexVal a
          let hb ← hexVal b
          let hc ← hexVal c
          let hd ← hexVal d
          parseStringBody f (Char.ofNat (((ha * 16 + hb) * 16 + hc) * 16 + hd) :: acc) r2
        | _ => none
      | _ => none
    | c :: r => if c.toNat < 32 then none else parseStringBody f (c :: acc) r

mutual

/-- Parse one JSON value (fuel-indexed recursive descent). -/
def parseValue : Nat → List Char → Option (Json × List Char)
  | 0, _ => none
  | Nat.succ f, s =>
    match skipWs s with
    | [] => none
    | 'n' :: 'u' :: 'l' :: 'l' :: r => some (.null, r)
    | 't' :: 'r' :: 'u' :: 'e' :: r => some (.bool true, r)
    | 'f' :: 'a' :: 'l' :: 's' :: 'e' :: r => some (.bool false, r)
    | '\"' :: r => do
      let (st, r2) ← parseStringBody f [] r
      some (.str st, r2)
    | '[' :: r => parseArrayRest f r
    | '\x7b' :: r => parseObjRest f r
    | c :: r => if c = '-' || isDigitCh c then parseNumber (c :: r) else none

/-- Parse the remainder of an array after `[`. -/
def parseArrayRest : Nat → List Char → Option (Json × List Char)
  | 0, _ => none
  | Nat.succ f, s =>
    match skipWs s with
    | ']' :: r => some (.arr [], r)
    | s2 => do
      let (v, r) ← parseValue f s2
      parseArrayTail f [v] r

/-- Parse further array elements after the first, accumulating in reverse. -/
def parseArrayTail : Nat → List Json → List Char → Option (Json × List Char)
  | 0, _, _ => none
  | Nat.succ f, acc, s =>
    match skipWs s with
    | ',' :: r => do
      let (v, r2) ← parseValue f r
      parseArrayTail f (v :: acc) r2
    | ']' :: r => some (.arr acc.reverse, r)
    | _ => none

/-- Parse the remainder of an object after the opening brace. -/
def parseObjRest : Nat → List Char → Option (Json × List Char)
  | 0, _ => none
  | Nat.succ f, s =>
    match skipWs s with
    | '\x7d' :: r => some (.obj [], r)
    | '\"' :: r => do
      let (k, r2) ← parseStringBody f [] r
      parseObjMember f [] k r2
    | _ => none

/-- Parse `: value` for the member named `k`, then the object tail. -/
def parseObjMember : Nat → List (String × Json) → String → List Char →
    Option (Json × List Char)
  | 0, _, _, _ => none
  | Nat.succ f, acc, k, s =>
    match skipWs s with
    | ':' :: r => do
      let (v, r2) ← parseValue f r
      parseObjTail f ((k, v) :: acc) r2
    | _ => none

/-- Parse further object members after the first, accumulating in reverse. -/
def parseObjTail : Nat → List (String × Json) → List Char → Option (Json × List Char)
  | 0, _, _ => none
  | Nat.succ f, acc, s =>
    match skipWs s with
    | ',' :: r =>
      match skipWs r with
      | '\"' :: r2 => do
        let (k, r3) ← parseStringBody f [] r2
        parseObjMember f acc k r3
      | _ => none
    | '\x7d' :: r => some (.obj acc.reverse, r)
    | _ => none

end

/-- The browser's `JSON.parse` (strict JSON grammar): parse one value and
require only whitespace to remain.  `none` models a thrown `SyntaxError`. -/
def jsonParse (text : String) : Option Json :=
  let cs := text.toList
  match parseValue (cs.length * 3 + 16) cs with
  | some (v, rest) => if skipWs rest = [] then some v else none
  | none => none

/-- JavaScript truthiness of a JSON value: `null`, `false`, numeric zero and
the empty string are falsy; arrays and objects are always truthy. -/
def jsTruthy : Json → Bool
  | .null => false
  | .bool b => b
  | .num i fd _ => !(i == 0 && fd.all (· == 0))
  | .str s => !(s == "")
  | .arr _ => true
  | .obj _ => true

/-! ## Runtime model: the bootstrap resolver embedded in `viewer.html` -/

/-- Bootstrap state observable at the end of a load attempt: either the setup
screen is (still) visible, or the engine rendered the given configuration and
the setup screen was hidden. -/
inductive BState where
  | setupVisible
  | rendering (cfg : Json)
deriving Repr

/-- Observable outcome of `initApp(config)`:
final state, the configuration handed to `new TableRenderer(...)`, the text
shown in the `setup-error` element (if displayed), and the console errors. -/
structure InitResult where
  finalState : BState
  engineConfig : Option Json
  shownError : Option String
  consoleErrors : List String
deriving Repr

/-- `initApp(config)`: construct the rendering engine with `config` and await
its render.  On success the setup screen is hidden; any throw or rejection is
caught, logged via `console.error`, and shown through `showError`. -/
def initApp (render : Json → Except String Unit) (config : Json) : InitResult :=
  match render config with
  | .ok _ =>
    { finalState := .rendering config
      engineConfig := some config
      shownError := none
      consoleErrors := [] }
  | .error msg =>
    { finalState := .setupVisible
      engineConfig := some config
      shownError := some ("Failed to initialize viewer: " ++ msg)
      consoleErrors := ["Initialization Failed: " ++ msg] }

/-- Observable outcome of one interactive submission from the setup surface. -/
structure SubmitResult where
  finalState : BState
  engineConfig : Option Json
  shownError : Option String
  parseAttempted : Bool
deriving Repr

/-- `handleFile(file)` after the `FileReader` delivered the file's text:
`JSON.parse` the text and `initApp` on success, else show `Invalid JSON file`. -/
def handleFile (render : Json → Except String Unit) (text : String) : SubmitResult :=
  match jsonParse text with
  | some config =>
    let r := initApp render config
    { finalState := r.finalState
      engineConfig := r.engineConfig
      shownError := r.shownError
      parseAttempted := true }
  | none =>
    { finalState := .setupVisible
      engineConfig := none
      shownError := some "Invalid JSON file"
      parseAttempted := true }

/-- JavaScript whitespace (ECMA-262 `WhiteSpace` and `LineTerminator` code
points), the set removed by `String.prototype.trim`. -/
def isJsWhitespace (c : Char) : Bool :=
  c.toNat = 0x9 || c.toNat = 0xA || c.toNat = 0xB || c.toNat = 0xC || c.toNat = 0xD ||
  c.toNat = 0x20 || c.toNat = 0xA0 || c.toNat = 0x1680 ||
  (0x2000 ≤ c.toNat && c.toNat ≤ 0x200A) ||
  c.toNat = 0x2028 || c.toNat = 0x2029 || c.toNat = 0x202F || c.toNat = 0x205F ||
  c.toNat = 0x3000 || c.toNat = 0xFEFF

/-- The host `String.prototype.trim`: drop JavaScript whitespace from both
ends. -/
def jsTrim (s : String) : String :=
  String.mk (((s.toList.dropWhile isJsWhitespace).reverse.dropWhile isJsWhitespace).reverse)

/-- `loadPastedConfig()`: trim the paste area's value; an empty trimmed value
returns without parsing; otherwise `JSON.parse` and `initApp` on success, else
show `Invalid JSON text`. -/
def loadPastedConfig (render : Json → Except String Unit) (text : String) : SubmitResult :=
  let val := jsTrim text
  if val = "" then
    { finalState := .setupVisible
      engineConfig := none
      shownError := none
      parseAttempted := false }
  else
    match jsonParse val with
    | some config =>
      let r := initApp render config
      { finalState := r.finalState
        engineConfig := r.engineConfig
        shownError := r.shownError
        parseAttempted := true }
    | none =>
      { finalState := .setupVisible
        engineConfig := none
        shownError := some "Invalid JSON text"
        parseAttempted := true }

/-- The three interactive acquisition mechanisms of the setup surface. -/
inductive Mechanism where
  | dropFile
  | pickFile
  | paste
deriving Repr

/-- One interactive submission: drag-drop and the file picker both funnel into
`handleFile`; the paste button invokes `loadPastedConfig`. -/
def submit (render : Json → Except String Unit) (mech : Mechanism) (text : String) :
    SubmitResult :=
  match mech with
  | .dropFile => handleFile render text
  | .pickFile => handleFile render text
  | .paste => loadPastedConfig render text

/-- The text the submission actually parses: `handleFile` parses the file text
as delivered, `loadPastedConfig` parses the trimmed paste text. -/
def effectiveText (mech : Mechanism) (text : String) : String :=
  match mech with
  | .dropFile => text
  | .pickFile => text
  | .paste => jsTrim text

/-- A `fetch` response as observed by the auto-load logic: its `ok` flag and
the body text that `resp.json()` parses. -/
structure FetchResp where
  ok : Bool
  body : String
deriving Repr

/-- Observable outcome of the auto-load chain run once on `DOMContentLoaded`. -/
structure AutoLoadResult where
  finalState : BState
  engineConfig : Option Json
  embeddedUsed : Bool
  warnings : List String
  shownError : Option String
deriving Repr

/-- Step 3 of the auto-load chain: `if (DEFAULT_CONFIG) initApp(DEFAULT_CONFIG)`,
else stay on the setup screen.  The guard is JavaScript truthiness. -/
def embeddedBranch (render : Json → Except String Unit) (defaultConfig : Json)
    (warnings : List String) : AutoLoadResult :=
  if jsTruthy defaultConfig then
    let r := initApp render defaultConfig
    { finalState := r.finalState
      engineConfig := r.engineConfig
      embeddedUsed := true
      warnings := warnings
      shownError := r.shownError }
  else
    { finalState := .setupVisible
      engineConfig := none
      embeddedUsed := false
      warnings := warnings
      shownError := none }

/-- The auto-load chain: if a `config` query parameter is present, fetch it;
a response with `ok` whose body parses as JSON goes straight to `initApp` and
returns (never reaching the embedded default); any fetch rejection, non-`ok`
status or body parse failure is caught, a warning is logged, and control falls
through to the embedded-default branch.  Without the parameter the embedded
branch runs directly.  (`fetch url = none` models a rejected fetch.) -/
def autoLoad (render : Json → Except String Unit) (configUrl : Option String)
    (fetch : String → Option FetchResp) (defaultConfig : Json) : AutoLoadResult :=
  match configUrl with
  | some url =>
    match fetch url with
    | some resp =>
      if resp.ok then
        match jsonParse resp.body with
        | some config =>
          let r := initApp render config
          { finalState := r.finalState
            engineConfig := r.engineConfig
            embeddedUsed := false
            warnings := []
            shownError := r.shownError }
        | none => embeddedBranch render defaultConfig ["URL config failed, trying local..."]
      else embeddedBranch render defaultConfig ["URL config failed, trying local..."]
    | none => embeddedBranch render defaultConfig ["URL config failed, trying local..."]
  | none => embeddedBranch render defaultConfig []

/-! ## Build-time model: the assembler (`build()`)

File systems are association lists from (root-relative) path to file content;
`read_file` returning `none` models the `OSError` raised by `open` on a
missing or unreadable file. -/

/-- Path of the default configuration file. -/
def CONFIG_PATH : String := "configs/genome-data.config.json"

/-- Path of the stylesheet. -/
def CSS_PATH : String := "css/table-renderer.css"

/-- Path of a behavior module inside the `js` directory. -/
def jsPath (name : String) : String := "js/" ++ name

/-- The module files, in the caller-specified dependency order. -/
def js_files : List String :=
  ["config-schema.js", "transformers.js", "kbase-client.js",
   "category-manager.js", "table-renderer.js"]

/-- `read_file(path)`: the file's content, or `none` for a raised `OSError`. -/
def read_file (fs : List (String × String)) (path : String) : Option String :=
  fs.lookup path

/-- One bundled module entry: the provenance comment naming the module,
followed by the module's content (the body of the bundling loop). -/
def moduleEntry (name content : String) : String :=
  "\n/* --- " ++ name ++ " --- */\n" ++ content ++ "\n"

/-- The bundling loop over resolved modules: start from the accumulator and
append each entry in order (`js_content += ...`). -/
def jsConcat : String → List (String × String) → String
  | acc, [] => acc
  | acc, (n, c) :: rest => jsConcat (acc ++ moduleEntry n c) rest

/-- The bundling loop over the file system: read each module in order, append
its entry, and abort with the failing module's name on a read error (the
uncaught exception inside the loop). -/
def bundleJs (fs : List (String × String)) : String → List String → Except String String
  | acc, [] => .ok acc
  | acc, f :: rest =>
    match read_file fs (jsPath f) with
    | none => .error f
    | some c => bundleJs fs (acc ++ moduleEntry f c) rest

mutual

/-- Scanner for one value of the grammar accepted by CPython's `json.loads`
(the build-time validator): the JSON grammar plus the non-standard constants
`NaN`, `Infinity` and `-Infinity` that Python accepts beyond strict JSON.
Strings and numbers follow the same grammar as `JSON.parse`, so those
sub-scanners are reused; the scanned value is discarded (`build()` ignores
the result of `json.loads`), so only the unconsumed remainder is returned. -/
def scanPyValue : Nat → List Char → Option (List Char)
  | 0, _ => none
  | Nat.succ f, s =>
    match skipWs s with
    | [] => none
    | 'n' :: 'u' :: 'l' :: 'l' :: r => some r
    | 't' :: 'r' :: 'u' :: 'e' :: r => some r
    | 'f' :: 'a' :: 'l' :: 's' :: 'e' :: r => some r
    | 'N' :: 'a' :: 'N' :: r => some r
    | 'I' :: 'n' :: 'f' :: 'i' :: 'n' :: 'i' :: 't' :: 'y' :: r => some r
    | '-' :: 'I' :: 'n' :: 'f' :: 'i' :: 'n' :: 'i' :: 't' :: 'y' :: r => some r
    | '\"' :: r => (parseStringBody f [] r).map Prod.snd
    | '[' :: r => scanPyArrayRest f r
    | '\x7b' :: r => scanPyObjRest f r
    | c :: r => if c = '-' || isDigitCh c then (parseNumber (c :: r)).map Prod.snd else none

/-- Scan the remainder of an array after `[` (json.loads grammar). -/
def scanPyArrayRest : Nat → List Char → Option (List Char)
  | 0, _ => none
  | Nat.succ f, s =>
    match skipWs s with
    | ']' :: r => some r
    | s2 => do
      let r ← scanPyValue f s2
      scanPyArrayTail f r

/-- Scan further array elements after the first (json.loads grammar). -/
def scanPyArrayTail : Nat → List Char → Option (List Char)
  | 0, _ => none
  | Nat.succ f, s =>
    match skipWs s with
    | ',' :: r => do
      let r2 ← scanPyValue f r
      scanPyArrayTail f r2
    | ']' :: r => some r
    | _ => none

/-- Scan the remainder of an object after the opening brace (json.loads). -/
def scanPyObjRest : Nat → List Char → Option (List Char)
  | 0, _ => none
  | Nat.succ f, s =>
    match skipWs s with
    | '\x7d' :: r => some r
    | '\"' :: r => do
      let p ← parseStringBody f [] r
      scanPyObjMember f p.2
    | _ => none

/-- Scan `: value` of an object member, then the object tail (json.loads). -/
def scanPyObjMember : Nat → List Char → Option (List Char)
  | 0, _ => none
  | Nat.succ f, s =>
    match skipWs s with
    | ':' :: r => do
      let r2 ← scanPyValue f r
      scanPyObjTail f r2
    | _ => none

/-- Scan further object members after the first (json.loads grammar). -/
def scanPyObjTail : Nat → List Char → Option (List Char)
  | 0, _ => none
  | Nat.succ f, s =>
    match skipWs s with
    | ',' :: r =>
      match skipWs r with
      | '\"' :: r2 => do
        let p ← parseStringBody f [] r2
        scanPyObjMember f p.2
      | _ => none
    | '\x7d' :: r => some r
    | _ => none

end

/-- The build-time validation `json.loads(config_content)` as `build()` uses
it: `true` when the call succeeds (the parsed value is discarded), `false`
when it raises.  CPython accepts strict JSON plus `NaN`, `Infinity` and
`-Infinity`, so this is strictly more permissive than the runtime
`JSON.parse` model `jsonParse`. -/
def json_loads_ok (text : String) : Bool :=
  let cs := text.toList
  match scanPyValue (cs.length * 3 + 16) cs with
  | some rest => (skipWs rest).isEmpty
  | none => false

/-- HTML template text before the interpolated stylesheet. -/
def tplHead : String :=
  "<!DOCTYPE html>\n<html lang=\"en\">\n<head>\n    <meta charset=\"UTF-8\">\n    <meta name=\"viewport\" content=\"width=device-width, initial-scale=1.0\">\n    <title>GenomeData Table Viewer</title>\n    <meta name=\"description\" content=\"Research-grade viewer for GenomeData tables.\">\n    \n    <!-- Bootstrap Icons (CDN) -->\n    <link rel=\"stylesheet\" href=\"https://cdn.jsdelivr.net/npm/bootstrap-icons@1.11.0/font/bootstrap-icons.css\">\n    \n    <!-- Fonts -->\n    <link href=\"https://fonts.googleapis.com/css2?family=Inter:wght@400;500;600;700&family=JetBrains+Mono:wght@400;500&display=swap\" rel=\"stylesheet\">\n\n    <style>\n        "

/-- HTML template text between the stylesheet and the embedded default config (ends with the `const DEFAULT_CONFIG = ` assignment). -/
def tplAfterCss : String :=
  "\n        \n        /* Setup Screen Styles (Inline for immediate rendering) */\n        #setup-screen \x7b\n            position: fixed;\n            top: 0;\n            left: 0;\n            width: 100%;\n            height: 100%;\n            background: var(--ts-bg-page);\n            display: flex;\n            align-items: center;\n            justify-content: center;\n            z-index: 2000;\n        \x7d\n        \n        .setup-card \x7b\n            background: var(--ts-bg-card);\n            padding: 2rem;\n            border-radius: var(--ts-radius-lg);\n            box-shadow: var(--ts-shadow-xl);\n            max-width: 500px;\n            width: 90%;\n            text-align: center;\n            border: 1px solid var(--ts-border);\n        \x7d\n        \n        .drop-zone \x7b\n            border: 2px dashed var(--ts-border);\n            border-radius: var(--ts-radius-md);\n            padding: 2rem;\n            margin: 1rem 0;\n            transition: all 0.2s;\n            background: var(--ts-bg-input);\n            cursor: pointer;\n        \x7d\n        \n        .drop-zone:hover \x7b\n            border-color: var(--ts-primary);\n            background: var(--ts-bg-hover);\n        \x7d\n        \n        .drop-zone.dragover \x7b\n            border-color: var(--ts-primary);\n            background: var(--ts-primary-muted);\n        \x7d\n    </style>\n</head>\n<body>\n    \n    <!-- Setup / Loading Screen -->\n    <div id=\"setup-screen\">\n        <div class=\"setup-card\">\n            <h2 style=\"margin-top:0; color:var(--ts-primary)\">Genome Data Viewer</h2>\n            <p style=\"color:var(--ts-text-muted)\">Research Edition</p>\n            \n            <div id=\"setup-drop-zone\" class=\"drop-zone\">\n                <i class=\"bi bi-file-earmark-code\" style=\"font-size: 2rem; color: var(--ts-text-dim)\"></i>\n                <p style=\"margin:0.5rem 0 0\">Drag & Drop Config File</p>\n            </div>\n            \n            <div style=\"margin: 1rem 0; position: relative;\">\n                <hr style=\"border: 0; border-top: 1px solid var(--ts-border);\">\n                <span style=\"position: absolute; top: -10px; left: 50%; transform: translateX(-50%); background: var(--ts-bg-card); padding: 0 10px; color: var(--ts-text-dim); font-size: 0.75rem;\">OR</span>\n            </div>\n            \n            <button class=\"ts-btn ts-btn-primary\" onclick=\"document.getElementById(\x27config-input\x27).click()\">\n                Load Local Config\n            </button>\n            <input type=\"file\" id=\"config-input\" accept=\".json\" style=\"display:none\">\n            \n            <div style=\"margin-top: 1rem\">\n                <textarea id=\"config-paste\" class=\"ts-input\" rows=\"3\" placeholder=\"Paste JSON config here...\" style=\"width:100%; resize: vertical;\"></textarea>\n            </div>\n            <button class=\"ts-btn\" style=\"margin-top: 0.5rem; width: 100%\" onclick=\"loadPastedConfig()\">Load JSON</button>\n             <p id=\"setup-error\" style=\"color: var(--ts-danger); font-size: 0.8rem; margin-top: 1rem; display: none;\"></p>\n        </div>\n    </div>\n\n    <!-- Main App Container -->\n    <div id=\"app\" class=\"ts-app\"></div>\n\n    <script>\n        // 1. Embedded Default Config\n        const DEFAULT_CONFIG = "

/-- HTML template text between the embedded default config and the bundled module text. -/
def tplAfterConfig : String :=
  ";\n        \n        // 2. Bundled Application Logic\n        "

/-- HTML template text after the bundled module text (the initialization logic and the closing tags). -/
def tplTail : String :=
  "\n\n        // 3. Initialization Logic\n        document.addEventListener(\x27DOMContentLoaded\x27, async () => \x7b\n            const setupScreen = document.getElementById(\x27setup-screen\x27);\n            const fileInput = document.getElementById(\x27config-input\x27);\n            const dropZone = document.getElementById(\x27setup-drop-zone\x27);\n            const pasteArea = document.getElementById(\x27config-paste\x27);\n            const errorMsg = document.getElementById(\x27setup-error\x27);\n            \n            function showError(msg) \x7b\n                errorMsg.textContent = msg;\n                errorMsg.style.display = \x27block\x27;\n            \x7d\n\n            async function initApp(config) \x7b\n                try \x7b\n                    const appContainer = document.getElementById(\x27app\x27);\n                    // Initialize renderer\n                    window.renderer = new TableRenderer(config);\n                    await window.renderer.render(appContainer);\n                    \n                    // Hide setup screen with fade\n                    setupScreen.style.opacity = \x270\x27;\n                    setTimeout(() => setupScreen.style.display = \x27none\x27, 300);\n                \x7d catch (e) \x7b\n                    console.error(\"Initialization Failed:\", e);\n                    showError(\"Failed to initialize viewer: \" + e.message);\n                \x7d\n            \x7d\n\n            // File Loading Logic\n            function handleFile(file) \x7b\n                const reader = new FileReader();\n                reader.onload = (e) => \x7b\n                    try \x7b\n                        const config = JSON.parse(e.target.result);\n                        initApp(config);\n                    \x7d catch (err) \x7b\n                        showError(\"Invalid JSON file\");\n                    \x7d\n                \x7d;\n                reader.readAsText(file);\n            \x7d\n\n            // Drag & Drop\n            dropZone.addEventListener(\x27dragover\x27, (e) => \x7b\n                e.preventDefault();\n                dropZone.classList.add(\x27dragover\x27);\n            \x7d);\n            dropZone.addEventListener(\x27dragleave\x27, () => dropZone.classList.remove(\x27dragover\x27));\n            dropZone.addEventListener(\x27drop\x27, (e) => \x7b\n                e.preventDefault();\n                dropZone.classList.remove(\x27dragover\x27);\n                if (e.dataTransfer.files.length) handleFile(e.dataTransfer.files[0]);\n            \x7d);\n\n            // Input Change\n            fileInput.addEventListener(\x27change\x27, (e) => \x7b\n                if (e.target.files.length) handleFile(e.target.files[0]);\n            \x7d);\n\n            // Global Pasted Config Handler\n            window.loadPastedConfig = () => \x7b\n                try \x7b\n                    const val = pasteArea.value.trim();\n                    if (!val) return;\n                    const config = JSON.parse(val);\n                    initApp(config);\n                \x7d catch (e) \x7b\n                    showError(\"Invalid JSON text\");\n                \x7d\n            \x7d;\n            \n            // --- AUTO-LOAD LOGIC ---\n            // 1. Check URL param ?config=...\n            const urlParams = new URLSearchParams(window.location.search);\n            const configUrl = urlParams.get(\x27config\x27);\n            \n            if (configUrl) \x7b\n                try \x7b\n                    const resp = await fetch(configUrl);\n                    if (!resp.ok) throw new Error(\x27Failed to fetch config\x27);\n                    const config = await resp.json();\n                    initApp(config);\n                    return;\n                \x7d catch (e) \x7b\n                    console.warn(\"URL config failed, trying local...\", e);\n                \x7d\n            \x7d\n            \n            // 2. Try fetching local relative config (if served)\n            /*\n            try \x7b\n                const controller = new AbortController();\n                const id = setTimeout(() => controller.abort(), 500); // 500ms timeout\n                const resp = await fetch(\x27configs/genome-data.config.json\x27, \x7b signal: controller.signal \x7d);\n                clearTimeout(id);\n                if (resp.ok) \x7b\n                    const config = await resp.json();\n                    initApp(config);\n                    return;\n                \x7d\n            \x7d catch (e) \x7b\n                // Ignore fetch errors (likely file:// protocol)\n            \x7d\n            */\n\n            // 3. Use Embedded Default (Fastest, most robust for this replica)\n            if (DEFAULT_CONFIG) \x7b\n                console.log(\"Using embedded default config\");\n                initApp(DEFAULT_CONFIG);\n            \x7d else \x7b\n                // Stay on setup screen\n            \x7d\n\n        \x7d);\n    </script>\n</body>\n</html>\n"

/-- The f-string `html_template`: the document with the stylesheet, the raw
validated config text and the bundled module text interpolated. -/
def html_template (css_content config_content js_content : String) : String :=
  tplHead ++ css_content ++ tplAfterCss ++ config_content ++ tplAfterConfig ++
    js_content ++ tplTail

/-- Outcome of one invocation of `build()` as a process:
`cssReadError` and `jsReadError` are uncaught exceptions (traceback, nonzero
exit); `configError` is the caught config read/parse failure (message printed,
plain `return`, so the process still exits 0); `ok` wrote the artifact. -/
inductive BuildOutcome where
  | cssReadError
  | configError
  | jsReadError (name : String)
  | ok (artifact : String)

/-- `build()`: read the stylesheet, read the config and validate it with
`json.loads` (any exception there prints an error and returns), bundle the
modules in order, and write the interpolated template to the output file. -/
def build (fs : List (String × String)) : BuildOutcome :=
  match read_file fs CSS_PATH with
  | none => .cssReadError
  | some css_content =>
    match read_file fs CONFIG_PATH with
    | none => .configError
    | some config_content =>
      match json_loads_ok config_content with
      | false => .configError
      | true =>
        match bundleJs fs "" js_files with
        | .error f => .jsReadError f
        | .ok js_content => .ok (html_template css_content config_content js_content)

/-- The content written to `viewer.html`, when the build wrote it. -/
def outputOf : BuildOutcome → Option String
  | .ok a => some a
  | _ => none

/-- Exit status of the `python build_viewer.py` process: an uncaught exception
terminates with status 1; the caught config failure `return`s and the process
exits 0, exactly like the success path. -/
def exitCode : BuildOutcome → Nat
  | .cssReadError => 1
  | .jsReadError _ => 1
  | .configError => 0
  | .ok _ => 0

/-- Whether the failure is reported on the console (printed error message or
interpreter traceback). -/
def reportsFailure : BuildOutcome → Bool
  | .ok _ => false
  | _ => true

/-- Module concatenation as the specification words it: each module's content
exactly once, in caller-specified order, each accompanied by the provenance
comment naming it. -/
def specModuleConcat : List (String × String) → String
  | [] => ""
  | (n, c) :: rest => ("\n/* --- " ++ n ++ " --- */\n" ++ c ++ "\n") ++ specModuleConcat rest

/-! ## Helper lemmas -/

theorem jsonParse_empty : jsonParse "" = none := rfl

theorem json_loads_ok_empty : json_loads_ok "" = false := rfl

theorem string_append_assoc (a b c : String) : a ++ b ++ c = a ++ (b ++ c) := by
  apply String.ext
  simp [String.data_append, List.append_assoc]

theorem string_append_empty (a : String) : a ++ "" = a := by
  apply String.ext
  simp [String.data_append]

/-- An interactive submission whose (effective) text is not valid JSON leaves
the setup screen visible and never reaches the engine. -/
theorem submit_invalid_stays (render : Json → Except String Unit)
    (mech : Mechanism) (text : String)
    (hinv : jsonParse (effectiveText mech text) = none) :
    (submit render mech text).finalState = BState.setupVisible ∧
    (submit render mech text).engineConfig = none := by
  cases mech
  · simp only [effectiveText] at hinv
    simp [submit, handleFile, hinv]
  · simp only [effectiveText] at hinv
    simp [submit, handleFile, hinv]
  · simp only [effectiveText] at hinv
    by_cases htr : jsTrim text = ""
    · simp [submit, loadPastedConfig, htr]
    · simp [submit, loadPastedConfig, htr, hinv]

/-- An invalid interactive submission other than an empty paste shows an
inline error. -/
theorem submit_invalid_shows_error (render : Json → Except String Unit)
    (mech : Mechanism) (text : String)
    (hinv : jsonParse (effectiveText mech text) = none)
    (hne : ¬ (mech = Mechanism.paste ∧ jsTrim text = "")) :
    ∃ msg, (submit render mech text).shownError = some msg := by
  cases mech
  · simp only [effectiveText] at hinv
    exact ⟨"Invalid JSON file", by simp [submit, handleFile, hinv]⟩
  · simp only [effectiveText] at hinv
    exact ⟨"Invalid JSON file", by simp [submit, handleFile, hinv]⟩
  · simp only [effectiveText] at hinv
    have htr : ¬ jsTrim text = "" := fun h => hne ⟨rfl, h⟩
    exact ⟨"Invalid JSON text", by simp [submit, loadPastedConfig, htr, hinv]⟩

/-- A valid interactive submission hands the parsed configuration to the
engine and, when the engine accepts it, ends in the rendering state. -/
theorem submit_valid_renders (render : Json → Except String Unit)
    (mech : Mechanism) (text : String) (cfg : Json)
    (hval : jsonParse (effectiveText mech text) = some cfg)
    (hok : render cfg = Except.ok ()) :
    (submit render mech text).engineConfig = some cfg ∧
    (submit render mech text).finalState = BState.rendering cfg := by
  cases mech
  · simp only [effectiveText] at hval
    simp [submit, handleFile, hval, initApp, hok]
  · simp only [effectiveText] at hval
    simp [submit, handleFile, hval, initApp, hok]
  · simp only [effectiveText] at hval
    have htr : ¬ jsTrim text = "" := by
      intro h
      rw [h, jsonParse_empty] at hval
      cases hval
    simp [submit, loadPastedConfig, htr, hval, initApp, hok]

/-- A submission that left the setup screen parsed as valid JSON. -/
theorem submit_renders_implies_valid (render : Json → Except String Unit)
    (mech : Mechanism) (text : String) (cfg : Json)
    (h : (submit render mech text).finalState = BState.rendering cfg) :
    jsonParse (effectiveText mech text) = some cfg := by
  cases mech <;> simp only [submit, handleFile, loadPastedConfig, effectiveText] at h ⊢
  case dropFile =>
    cases hp : jsonParse text with
    | none => rw [hp] at h; cases h
    | some c =>
      rw [hp] at h
      cases hr : render c <;> simp [initApp, hr] at h <;> simp [h]
  case pickFile =>
    cases hp : jsonParse text with
    | none => rw [hp] at h; cases h
    | some c =>
      rw [hp] at h
      cases hr : render c <;> simp [initApp, hr] at h <;> simp [h]
  case paste =>
    by_cases htr : jsTrim text = ""
    · simp [htr] at h
    · simp only [htr, if_false] at h
      cases hp : jsonParse (jsTrim text) with
      | none => rw [hp] at h; cases h
      | some c =>
        rw [hp] at h
        cases hr : render c <;> simp [initApp, hr] at h <;> simp [h]

/-- When every module in `l` resolves, the bundling loop from accumulator
`acc` produces `acc` followed by the spec-side concatenation. -/
theorem bundleJs_resolved (fs : List (String × String)) (content : String → String) :
    ∀ (l : List String) (acc : String),
      (∀ f ∈ l, read_file fs (jsPath f) = some (content f)) →
      bundleJs fs acc l = Except.ok (acc ++ specModuleConcat (l.map fun f => (f, content f))) := by
  intro l
  induction l with
  | nil => intro acc _; simp [bundleJs, specModuleConcat, string_append_empty]
  | cons f rest ih =>
    intro acc hread
    have hf : read_file fs (jsPath f) = some (content f) := hread f (by simp)
    have hrest : ∀ g ∈ rest, read_file fs (jsPath g) = some (content g) :=
      fun g hg => hread g (by simp [hg])
    simp only [bundleJs, hf]
    rw [ih (acc ++ moduleEntry f (content f)) hrest]
    simp [specModuleConcat, moduleEntry, string_append_assoc]

/-- The bundling loop succeeds exactly when every module in `l` resolves. -/
theorem bundleJs_ok_iff (fs : List (String × String)) :
    ∀ (l : List String) (acc : String),
      (∃ out, bundleJs fs acc l = Except.ok out) ↔
      (∀ f ∈ l, (read_file fs (jsPath f)).isSome = true) := by
  intro l
  induction l with
  | nil => intro acc; simp [bundleJs]
  | cons f rest ih =>
    intro acc
    cases hf : read_file fs (jsPath f) with
    | none =>
      simp only [bundleJs, hf]
      constructor
      · rintro ⟨out, hout⟩; cases hout
      · intro hall
        have := hall f (by simp)
        rw [hf] at this
        cases this
    | some c =>
      simp only [bundleJs, hf]
      rw [ih (acc ++ moduleEntry f c)]
      constructor
      · intro hall g hg
        rcases List.mem_cons.mp hg with h | h
        · rw [h, hf]; rfl
        · exact hall g h
      · intro hall g hg
        exact hall g (by simp [hg])

/-! ## Claim theorems -/

/-- Claim C1: whenever the page URL carries a `config` query parameter whose
fetch succeeds with a success status and whose body parses as JSON, the
bootstrap resolver constructs the rendering engine with the fetched
configuration and the embedded default is never used, regardless of whether an
embedded default is present (and regardless of the engine's outcome). -/
theorem c1_url_config_success (render : Json → Except String Unit)
    (fetch : String → Option FetchResp) (defaultConfig : Json)
    (url : String) (resp : FetchResp) (cfg : Json)
    (hf : fetch url = some resp) (hok : resp.ok = true)
    (hp : jsonParse resp.body = some cfg) :
    (autoLoad render (some url) fetch defaultConfig).engineConfig = some cfg ∧
    (autoLoad render (some url) fetch defaultConfig).embeddedUsed = false := by
  unfold autoLoad
  dsimp only
  rw [hf]
  simp only [hok, if_true, hp]
  cases hr : render cfg
  all_goals simp [initApp, hr]

/-- Witness for C1: a session with `?config=cfg.json` whose fetch returns the
body `{"a":1}` renders from the fetched configuration, with a null embedded
default untouched. -/
theorem c1_witness :
    (fun (_ : String) => some (FetchResp.mk true "\x7b\"a\":1\x7d")) "cfg.json"
        = some (FetchResp.mk true "\x7b\"a\":1\x7d") ∧
    jsonParse "\x7b\"a\":1\x7d" = some (Json.obj [("a", Json.num 1 [] 0)]) ∧
    (autoLoad (fun _ => Except.ok ()) (some "cfg.json")
        (fun _ => some (FetchResp.mk true "\x7b\"a\":1\x7d")) Json.null).engineConfig
      = some (Json.obj [("a", Json.num 1 [] 0)]) ∧
    (autoLoad (fun _ => Except.ok ()) (some "cfg.json")
        (fun _ => some (FetchResp.mk true "\x7b\"a\":1\x7d")) Json.null).embeddedUsed = false := by
  refine ⟨rfl, by rfl, ?_⟩
  exact c1_url_config_success _ _ _ _ _ _ rfl rfl (by rfl)

/-- Counterexample to C2 as stated: with a failing fetch and the embedded
default `false` — a value that is present in the artifact and passed build-time
JSON validation — the resolver ends on the setup screen and never hands the
embedded default to the engine, instead of rendering with it. -/
theorem c2_counterexample :
    jsonParse "false" = some (Json.bool false) ∧
    (autoLoad (fun _ => Except.ok ()) (some "u") (fun _ => none) (Json.bool false)).finalState
      = BState.setupVisible ∧
    (autoLoad (fun _ => Except.ok ()) (some "u") (fun _ => none) (Json.bool false)).engineConfig
      = none := by
  refine ⟨by rfl, rfl, rfl⟩

/-- Claim C2 (amended): when the `config` query parameter is present but the
fetch rejects, returns a non-success status, or its body fails to parse, the
resolver logs exactly one warning and surfaces no error from the URL failure;
it falls through to the embedded default, rendering with it when the embedded
default is JavaScript-truthy and the engine accepts it, and showing the setup
screen without any error when the embedded default is falsy. -/
theorem c2_url_failure_falls_through (render : Json → Except String Unit)
    (fetch : String → Option FetchResp) (d : Json) (url : String)
    (hfail : fetch url = none ∨
      ∃ resp, fetch url = some resp ∧ (resp.ok = false ∨ jsonParse resp.body = none)) :
    (autoLoad render (some url) fetch d).warnings = ["URL config failed, trying local..."] ∧
    (jsTruthy d = false →
      (autoLoad render (some url) fetch d).finalState = BState.setupVisible ∧
      (autoLoad render (some url) fetch d).shownError = none ∧
      (autoLoad render (some url) fetch d).engineConfig = none) ∧
    (jsTruthy d = true →
      (autoLoad render (some url) fetch d).engineConfig = some d ∧
      (autoLoad render (some url) fetch d).embeddedUsed = true ∧
      (render d = Except.ok () →
        (autoLoad render (some url) fetch d).finalState = BState.rendering d ∧
        (autoLoad render (some url) fetch d).shownError = none)) := by
  have hbranch : autoLoad render (some url) fetch d
      = embeddedBranch render d ["URL config failed, trying local..."] := by
    unfold autoLoad
    dsimp only
    rcases hfail with h | ⟨resp, hr, hfo⟩
    · rw [h]
    · rw [hr]
      rcases hfo with ho | hpn
      · simp [ho]
      · cases hok : resp.ok
        all_goals simp [hok, hpn]
  rw [hbranch]
  unfold embeddedBranch
  refine ⟨?_, ?_, ?_⟩
  · cases ht : jsTruthy d
    all_goals simp [ht]
  · intro ht; simp [ht]
  · intro ht
    simp only [ht, if_true]
    refine ⟨?_, ?_, ?_⟩
    · cases hr : render d
      all_goals simp [initApp, hr]
    · simp
    · intro hok; simp [initApp, hok]

/-- Witness for C2 (amended): a rejected fetch with a truthy embedded default
`{"a":1}` logs the warning and renders from the embedded default with no
user-visible error. -/
theorem c2_witness :
    jsTruthy (Json.obj [("a", Json.num 1 [] 0)]) = true ∧
    (autoLoad (fun _ => Except.ok ()) (some "u") (fun _ => none)
        (Json.obj [("a", Json.num 1 [] 0)])).warnings = ["URL config failed, trying local..."] ∧
    (autoLoad (fun _ => Except.ok ()) (some "u") (fun _ => none)
        (Json.obj [("a", Json.num 1 [] 0)])).finalState
      = BState.rendering (Json.obj [("a", Json.num 1 [] 0)]) ∧
    (autoLoad (fun _ => Except.ok ()) (some "u") (fun _ => none)
        (Json.obj [("a", Json.num 1 [] 0)])).shownError = none := by
  have h := c2_url_failure_falls_through (fun _ => Except.ok ()) (fun _ => none)
    (Json.obj [("a", Json.num 1 [] 0)]) "u" (Or.inl rfl)
  exact ⟨rfl, h.1, (h.2.2 rfl).2.2 rfl⟩

/-- Counterexample to C3 as stated, in both directions.  A paste consisting
only of whitespace is not valid JSON, and the resolver does stay on the setup
screen, but it displays no inline error at all (the submission is a silent
no-op).  Conversely, a paste whose raw text is `{"a":1}` preceded by a
no-break space is not valid JSON either (U+00A0 is not JSON whitespace), yet
`trim()` removes it and the application renders — it does not stay in the
setup-visible state.  So the original claim must be read on the text the code
actually parses: the trimmed paste text. -/
theorem c3_counterexample :
    jsonParse "   " = none ∧
    (submit (fun _ => Except.ok ()) Mechanism.paste "   ").finalState = BState.setupVisible ∧
    (submit (fun _ => Except.ok ()) Mechanism.paste "   ").shownError = none ∧
    (submit (fun _ => Except.ok ()) Mechanism.paste "   ").parseAttempted = false ∧
    jsonParse "\u00A0\x7b\"a\":1\x7d" = none ∧
    (submit (fun _ => Except.ok ()) Mechanism.paste "\u00A0\x7b\"a\":1\x7d").finalState
      = BState.rendering (Json.obj [("a", Json.num 1 [] 0)]) := by
  exact ⟨by rfl, by rfl, by rfl, by rfl, by rfl, by rfl⟩

/-- Claim C3 (amended): an interactively supplied input whose effective text —
the file text as delivered for drop and pick, the pasted text after `trim()`
for paste — is not valid JSON leaves the application in the setup-visible
state, and displays an inline error except in one case: a paste whose trimmed
text is empty, which is a silent no-op.  A subsequent submission whose
effective text is valid JSON, from any of the three mechanisms, hands the
parsed configuration to the engine and transitions to rendering when the
engine accepts it. -/
theorem c3_invalid_then_valid (render render2 : Json → Except String Unit)
    (mech mech2 : Mechanism) (text text2 : String) (cfg : Json)
    (hinv : jsonParse (effectiveText mech text) = none)
    (hval : jsonParse (effectiveText mech2 text2) = some cfg)
    (hok : render2 cfg = Except.ok ()) :
    (submit render mech text).finalState = BState.setupVisible ∧
    (submit render mech text).engineConfig = none ∧
    (¬ (mech = Mechanism.paste ∧ jsTrim text = "") →
      ∃ msg, (submit render mech text).shownError = some msg) ∧
    (submit render2 mech2 text2).engineConfig = some cfg ∧
    (submit render2 mech2 text2).finalState = BState.rendering cfg :=
  ⟨(submit_invalid_stays render mech text hinv).1,
   (submit_invalid_stays render mech text hinv).2,
   fun hne => submit_invalid_shows_error render mech text hinv hne,
   (submit_valid_renders render2 mech2 text2 cfg hval hok).1,
   (submit_valid_renders render2 mech2 text2 cfg hval hok).2⟩

/-- Witness for C3 (amended): dropping a file containing `{"a":}` stays on the
setup screen with an inline error, and a subsequent paste of ` {"a":1} `
reaches the rendering state. -/
theorem c3_witness :
    jsonParse "\x7b\"a\":\x7d" = none ∧
    jsonParse (jsTrim " \x7b\"a\":1\x7d ") = some (Json.obj [("a", Json.num 1 [] 0)]) ∧
    (submit (fun _ => Except.ok ()) Mechanism.dropFile "\x7b\"a\":\x7d").finalState
      = BState.setupVisible ∧
    (∃ msg, (submit (fun _ => Except.ok ()) Mechanism.dropFile "\x7b\"a\":\x7d").shownError
      = some msg) ∧
    (submit (fun _ => Except.ok ()) Mechanism.paste " \x7b\"a\":1\x7d ").finalState
      = BState.rendering (Json.obj [("a", Json.num 1 [] 0)]) := by
  have h := c3_invalid_then_valid (fun _ => Except.ok ()) (fun _ => Except.ok ())
    Mechanism.dropFile Mechanism.paste "\x7b\"a\":\x7d" " \x7b\"a\":1\x7d "
    (Json.obj [("a", Json.num 1 [] 0)]) (by rfl) (by rfl) rfl
  refine ⟨by rfl, by rfl, h.1, h.2.2.1 ?_, h.2.2.2.2⟩
  rintro ⟨hcontra, -⟩
  cases hcontra

/-- Claim C4: if the engine's construction throws or its asynchronous render
rejects, the failure is caught inside `initApp`, logged to the console, and its
message displayed on the setup surface (prefixed `Failed to initialize
viewer: `); `initApp` is total — every outcome is either rendering or
setup-visible, so no failure escapes — and a subsequent valid submission whose
configuration the engine accepts still reaches rendering. -/
theorem c4_render_failure_contained (render : Json → Except String Unit)
    (cfg : Json) (msg : String) (hfail : render cfg = Except.error msg) :
    (initApp render cfg).finalState = BState.setupVisible ∧
    (initApp render cfg).shownError = some ("Failed to initialize viewer: " ++ msg) ∧
    (initApp render cfg).consoleErrors = ["Initialization Failed: " ++ msg] ∧
    (∀ render2 cfg2, (initApp render2 cfg2).finalState = BState.rendering cfg2 ∨
      (initApp render2 cfg2).finalState = BState.setupVisible) ∧
    (∀ render3 mech text cfg3, jsonParse (effectiveText mech text) = some cfg3 →
      render3 cfg3 = Except.ok () →
      (submit render3 mech text).finalState = BState.rendering cfg3) := by
  refine ⟨by simp [initApp, hfail], by simp [initApp, hfail], by simp [initApp, hfail], ?_, ?_⟩
  · intro render2 cfg2
    cases hr : render2 cfg2 with
    | error e => right; simp [initApp, hr]
    | ok u => left; cases u; simp [initApp, hr]
  · intro render3 mech text cfg3 hv hok3
    exact (submit_valid_renders render3 mech text cfg3 hv hok3).2

/-- Witness for C4: an engine rejecting with message `boom` leaves the setup
surface active with the message displayed, and a later paste of `1` against an
accepting engine renders. -/
theorem c4_witness :
    (fun (_ : Json) => (Except.error "boom" : Except String Unit)) Json.null
      = Except.error "boom" ∧
    (initApp (fun _ => Except.error "boom") Json.null).finalState = BState.setupVisible ∧
    (initApp (fun _ => Except.error "boom") Json.null).shownError
      = some "Failed to initialize viewer: boom" ∧
    (submit (fun _ => Except.ok ()) Mechanism.paste "1").finalState
      = BState.rendering (Json.num 1 [] 0) := by
  have h := c4_render_failure_contained (fun _ => Except.error "boom") Json.null "boom" rfl
  exact ⟨rfl, h.1, h.2.1, h.2.2.2.2 (fun _ => Except.ok ()) Mechanism.paste "1"
    (Json.num 1 [] 0) (by rfl) rfl⟩

/-- Claim C5: with no `config` query parameter and no usable (truthy) embedded
default, the auto-load chain ends on the setup screen with no error and no
engine invocation, and the only way any submission leaves the setup-visible
state is that its effective text parses as valid JSON. -/
theorem c5_no_sources_stays_setup (render : Json → Except String Unit)
    (fetch : String → Option FetchResp) (d : Json) (habs : jsTruthy d = false) :
    (autoLoad render none fetch d).finalState = BState.setupVisible ∧
    (autoLoad render none fetch d).engineConfig = none ∧
    (autoLoad render none fetch d).shownError = none ∧
    (∀ render2 mech text cfg,
      (submit render2 mech text).finalState = BState.rendering cfg →
      jsonParse (effectiveText mech text) = some cfg) := by
  refine ⟨?_, ?_, ?_, fun r m t c h => submit_renders_implies_valid r m t c h⟩
  all_goals simp [autoLoad, embeddedBranch, habs]

/-- Witness for C5: no URL parameter and a null embedded default reach the
setup screen with the engine never constructed. -/
theorem c5_witness :
    jsTruthy Json.null = false ∧
    (autoLoad (fun _ => Except.ok ()) none (fun _ => none) Json.null).finalState
      = BState.setupVisible ∧
    (autoLoad (fun _ => Except.ok ()) none (fun _ => none) Json.null).engineConfig = none := by
  have h := c5_no_sources_stays_setup (fun _ => Except.ok ()) (fun _ => none) Json.null rfl
  exact ⟨rfl, h.1, h.2.1⟩

/-- Counterexample to C6 as stated: with the stylesheet present and the config
file missing, the build writes no output and reports the failure, but the
caught exception ends in a plain `return`, so the process exits with success
status 0 — not the non-success exit status the claim requires. -/
theorem c6_counterexample :
    read_file [(CSS_PATH, ""), (jsPath "config-schema.js", ""), (jsPath "transformers.js", ""),
      (jsPath "kbase-client.js", ""), (jsPath "category-manager.js", ""),
      (jsPath "table-renderer.js", "")] CONFIG_PATH = none ∧
    build [(CSS_PATH, ""), (jsPath "config-schema.js", ""), (jsPath "transformers.js", ""),
      (jsPath "kbase-client.js", ""), (jsPath "category-manager.js", ""),
      (jsPath "table-renderer.js", "")] = BuildOutcome.configError ∧
    exitCode (build [(CSS_PATH, ""), (jsPath "config-schema.js", ""), (jsPath "transformers.js", ""),
      (jsPath "kbase-client.js", ""), (jsPath "category-manager.js", ""),
      (jsPath "table-renderer.js", "")]) = 0 ∧
    outputOf (build [(CSS_PATH, ""), (jsPath "config-schema.js", ""), (jsPath "transformers.js", ""),
      (jsPath "kbase-client.js", ""), (jsPath "category-manager.js", ""),
      (jsPath "table-renderer.js", "")]) = none := by
  exact ⟨by rfl, by rfl, by rfl, by rfl⟩

/-- Claim C6 (amended): when the default configuration file is missing,
unreadable, or fails the `json.loads` validation, the build writes no output
file and reports the failure; if the stylesheet read failed first, the script
crashes with a non-success exit status, but otherwise the config error is
caught and the process still exits with success status 0; an output file is
produced exactly when every read and the `json.loads` validation succeed. -/
theorem c6_config_failure_soft_exit (fs : List (String × String))
    (hfail : read_file fs CONFIG_PATH = none ∨
      ∃ t, read_file fs CONFIG_PATH = some t ∧ json_loads_ok t = false) :
    outputOf (build fs) = none ∧
    reportsFailure (build fs) = true ∧
    ((read_file fs CSS_PATH).isSome = true →
      build fs = BuildOutcome.configError ∧ exitCode (build fs) = 0) ∧
    (read_file fs CSS_PATH = none →
      build fs = BuildOutcome.cssReadError ∧ exitCode (build fs) = 1) ∧
    (∀ fs2, (outputOf (build fs2)).isSome = true ↔
      ((read_file fs2 CSS_PATH).isSome = true ∧
       (∃ t, read_file fs2 CONFIG_PATH = some t ∧ json_loads_ok t = true) ∧
       (∀ f ∈ js_files, (read_file fs2 (jsPath f)).isSome = true))) := by
  have hconf : ∀ css, read_file fs CSS_PATH = some css → build fs = BuildOutcome.configError := by
    intro css hcss
    unfold build
    rw [hcss]
    dsimp only
    rcases hfail with h | ⟨t, ht, hp⟩
    · rw [h]
    · rw [ht]
      dsimp only
      rw [hp]
  have hout : outputOf (build fs) = none := by
    cases hcss : read_file fs CSS_PATH with
    | none => unfold build; rw [hcss]; rfl
    | some css => rw [hconf css hcss]; rfl
  have hrep : reportsFailure (build fs) = true := by
    cases hcss : read_file fs CSS_PATH with
    | none => unfold build; rw [hcss]; rfl
    | some css => rw [hconf css hcss]; rfl
  refine ⟨hout, hrep, ?_, ?_, ?_⟩
  · intro hsome
    cases hcss : read_file fs CSS_PATH with
    | none => rw [hcss] at hsome; cases hsome
    | some css => exact ⟨hconf css hcss, by rw [hconf css hcss]; rfl⟩
  · intro h0
    have hb : build fs = BuildOutcome.cssReadError := by
      unfold build
      rw [h0]
    exact ⟨hb, by rw [hb]; rfl⟩
  · intro fs2
    constructor
    · intro hsome
      cases hcss : read_file fs2 CSS_PATH with
      | none =>
        unfold build at hsome
        rw [hcss] at hsome
        cases hsome
      | some css =>
        unfold build at hsome
        rw [hcss] at hsome
        dsimp only at hsome
        cases hcfg : read_file fs2 CONFIG_PATH with
        | none => rw [hcfg] at hsome; cases hsome
        | some t =>
          rw [hcfg] at hsome
          dsimp only at hsome
          cases hp : json_loads_ok t with
          | false => rw [hp] at hsome; cases hsome
          | true =>
            rw [hp] at hsome
            dsimp only at hsome
            cases hb : bundleJs fs2 "" js_files with
            | error e => rw [hb] at hsome; cases hsome
            | ok jsc =>
              refine ⟨rfl, ⟨t, rfl, hp⟩, ?_⟩
              exact (bundleJs_ok_iff fs2 js_files "").mp ⟨jsc, hb⟩
    · rintro ⟨hcss, ⟨t, hcfg, hp⟩, hjs⟩
      cases hcss2 : read_file fs2 CSS_PATH with
      | none => rw [hcss2] at hcss; cases hcss
      | some css =>
        rcases (bundleJs_ok_iff fs2 js_files "").mpr hjs with ⟨out, hb⟩
        unfold build
        rw [hcss2]
        dsimp only
        rw [hcfg]
        dsimp only
        rw [hp]
        dsimp only
        rw [hb]
        rfl

/-- Witness for C6 (amended): a config file containing `not json` yields no
output, yet the process exit status is 0. -/
theorem c6_amended_witness :
    read_file [(CSS_PATH, "x"), (CONFIG_PATH, "not json")] CONFIG_PATH = some "not json" ∧
    json_loads_ok "not json" = false ∧
    outputOf (build [(CSS_PATH, "x"), (CONFIG_PATH, "not json")]) = none ∧
    exitCode (build [(CSS_PATH, "x"), (CONFIG_PATH, "not json")]) = 0 := by
  have h := c6_config_failure_soft_exit [(CSS_PATH, "x"), (CONFIG_PATH, "not json")]
    (Or.inr ⟨"not json", by rfl, by rfl⟩)
  exact ⟨by rfl, by rfl, h.1, (h.2.2.1 (by rfl)).2⟩

/-- Claim C7: for every ordered list of module files that all resolve, the
module text embedded in the output document is exactly the concatenation, in
caller-specified order, of one provenance marker naming each module followed
by that module's content — each content exactly once; moreover every artifact
the build writes is the template with that bundled module text interpolated. -/
theorem c7_modules_in_order (fs : List (String × String)) (l : List String)
    (content : String → String)
    (hread : ∀ f ∈ l, read_file fs (jsPath f) = some (content f)) :
    bundleJs fs "" l = Except.ok (specModuleConcat (l.map fun f => (f, content f))) ∧
    (∀ fs2 a, build fs2 = BuildOutcome.ok a →
      ∃ css cfgt jsc, read_file fs2 CSS_PATH = some css ∧
        read_file fs2 CONFIG_PATH = some cfgt ∧
        bundleJs fs2 "" js_files = Except.ok jsc ∧
        a = html_template css cfgt jsc) := by
  constructor
  · have h := bundleJs_resolved fs content l "" hread
    rwa [show ("" ++ specModuleConcat (l.map fun f => (f, content f))
      = specModuleConcat (l.map fun f => (f, content f))) from
      String.ext (by simp [String.data_append])] at h
  · intro fs2 a h
    unfold build at h
    cases hcss : read_file fs2 CSS_PATH with
    | none => rw [hcss] at h; cases h
    | some css =>
      rw [hcss] at h
      dsimp only at h
      cases hcfg : read_file fs2 CONFIG_PATH with
      | none => rw [hcfg] at h; cases h
      | some cfgt =>
        rw [hcfg] at h
        dsimp only at h
        cases hp : json_loads_ok cfgt with
        | false => rw [hp] at h; cases h
        | true =>
          rw [hp] at h
          dsimp only at h
          cases hb : bundleJs fs2 "" js_files with
          | error e => rw [hb] at h; cases h
          | ok jsc =>
            rw [hb] at h
            dsimp only at h
            cases h
            exact ⟨css, cfgt, jsc, rfl, rfl, rfl, rfl⟩

/-- Witness for C7: two modules `a.js` and `b.js` bundle to their two marked
entries in order. -/
theorem c7_witness :
    (∀ f ∈ ["a.js", "b.js"],
      read_file [(jsPath "a.js", "AAA"), (jsPath "b.js", "BBB")] (jsPath f)
        = some (if f = "a.js" then "AAA" else "BBB")) ∧
    bundleJs [(jsPath "a.js", "AAA"), (jsPath "b.js", "BBB")] "" ["a.js", "b.js"]
      = Except.ok "\n/* --- a.js --- */\nAAA\n\n/* --- b.js --- */\nBBB\n" := by
  have hread : ∀ f ∈ ["a.js", "b.js"],
      read_file [(jsPath "a.js", "AAA"), (jsPath "b.js", "BBB")] (jsPath f)
        = some (if f = "a.js" then "AAA" else "BBB") := by
    intro f hf
    rcases List.mem_cons.mp hf with h | h
    · subst h; rfl
    · rcases List.mem_cons.mp h with h2 | h2
      · subst h2; rfl
      · cases h2
  have h := (c7_modules_in_order _ ["a.js", "b.js"] _ hread).1
  refine ⟨hread, ?_⟩
  rw [h]
  rfl

/-- Counterexample to C8 as stated: a source config file containing the JSON
literal `null` — the very value the runtime treats as an absent embed — passes
`json.loads` validation, so the build succeeds and writes an artifact whose
embedded default is null, instead of failing hard with no output. -/
theorem c8_counterexample :
    read_file [(CSS_PATH, ""), (CONFIG_PATH, "null"), (jsPath "config-schema.js", ""),
      (jsPath "transformers.js", ""), (jsPath "kbase-client.js", ""),
      (jsPath "category-manager.js", ""), (jsPath "table-renderer.js", "")] CONFIG_PATH
      = some "null" ∧
    (outputOf (build [(CSS_PATH, ""), (CONFIG_PATH, "null"), (jsPath "config-schema.js", ""),
      (jsPath "transformers.js", ""), (jsPath "kbase-client.js", ""),
      (jsPath "category-manager.js", ""), (jsPath "table-renderer.js", "")])).isSome = true := by
  exact ⟨by rfl, by rfl⟩

/-- Claim C8 (amended): the assembler never writes an artifact with an empty
embed — every written artifact interpolates a config text that was read
successfully, is nonempty, and was accepted by `json.loads` — but that
validation is weaker than the claim assumes: it accepts the JSON literal
`null` and even the non-JSON constants `NaN` and `Infinity` (which the
runtime `JSON.parse` rejects), so such texts are embedded verbatim instead of
failing the build. -/
theorem c8_embed_validated_never_empty (fs : List (String × String)) (a : String)
    (h : build fs = BuildOutcome.ok a) :
    (∃ t, read_file fs CONFIG_PATH = some t ∧ json_loads_ok t = true ∧ t ≠ "" ∧
      ∃ css jsc, a = html_template css t jsc) ∧
    json_loads_ok "null" = true ∧
    json_loads_ok "NaN" = true ∧
    json_loads_ok "Infinity" = true ∧
    jsonParse "NaN" = none ∧
    jsonParse "Infinity" = none := by
  refine ⟨?_, by rfl, by rfl, by rfl, by rfl, by rfl⟩
  unfold build at h
  cases hcss : read_file fs CSS_PATH with
  | none => rw [hcss] at h; cases h
  | some css =>
    rw [hcss] at h
    dsimp only at h
    cases hcfg : read_file fs CONFIG_PATH with
    | none => rw [hcfg] at h; cases h
    | some t =>
      rw [hcfg] at h
      dsimp only at h
      cases hp : json_loads_ok t with
      | false => rw [hp] at h; cases h
      | true =>
        rw [hp] at h
        dsimp only at h
        cases hb : bundleJs fs "" js_files with
        | error e => rw [hb] at h; cases h
        | ok jsc =>
          rw [hb] at h
          dsimp only at h
          cases h
          refine ⟨t, rfl, hp, ?_, css, jsc, rfl⟩
          intro he
          rw [he, json_loads_ok_empty] at hp
          cases hp

/-- Witness for C8 (amended): the build over a file system whose config file
holds `null` writes the artifact with `null` interpolated as the embedded
default; a config file holding the non-JSON text `NaN` is likewise accepted
and its artifact written. -/
theorem c8_amended_witness :
    build [(CSS_PATH, ""), (CONFIG_PATH, "null"), (jsPath "config-schema.js", ""),
      (jsPath "transformers.js", ""), (jsPath "kbase-client.js", ""),
      (jsPath "category-manager.js", ""), (jsPath "table-renderer.js", "")]
      = BuildOutcome.ok (html_template "" "null"
          (jsConcat "" (js_files.map fun f => (f, "")))) ∧
    (∃ t, read_file [(CSS_PATH, ""), (CONFIG_PATH, "null"), (jsPath "config-schema.js", ""),
      (jsPath "transformers.js", ""), (jsPath "kbase-client.js", ""),
      (jsPath "category-manager.js", ""), (jsPath "table-renderer.js", "")] CONFIG_PATH = some t ∧
      json_loads_ok t = true ∧ t ≠ "" ∧
      ∃ css jsc, html_template "" "null" (jsConcat "" (js_files.map fun f => (f, "")))
        = html_template css t jsc) ∧
    build [(CSS_PATH, ""), (CONFIG_PATH, "NaN"), (jsPath "config-schema.js", ""),
      (jsPath "transformers.js", ""), (jsPath "kbase-client.js", ""),
      (jsPath "category-manager.js", ""), (jsPath "table-renderer.js", "")]
      = BuildOutcome.ok (html_template "" "NaN"
          (jsConcat "" (js_files.map fun f => (f, "")))) := by
  refine ⟨by rfl, ?_, by rfl⟩
  exact (c8_embed_validated_never_empty _ _ (by rfl)).1

/-- Claim C9: committing the paste mechanism with text whose trim is empty is
a silent no-op — no JSON parse is attempted, no error is shown, the setup
screen stays and the engine is not constructed — while every other invalid
paste shows the inline `Invalid JSON text` error. -/
theorem c9_whitespace_paste_noop (render : Json → Except String Unit) (text : String)
    (hws : jsTrim text = "") :
    (loadPastedConfig render text).parseAttempted = false ∧
    (loadPastedConfig render text).shownError = none ∧
    (loadPastedConfig render text).finalState = BState.setupVisible ∧
    (loadPastedConfig render text).engineConfig = none ∧
    (∀ render2 t2, jsTrim t2 ≠ "" → jsonParse (jsTrim t2) = none →
      (loadPastedConfig render2 t2).shownError = some "Invalid JSON text" ∧
      (loadPastedConfig render2 t2).parseAttempted = true) := by
  refine ⟨by simp [loadPastedConfig, hws], by simp [loadPastedConfig, hws],
    by simp [loadPastedConfig, hws], by simp [loadPastedConfig, hws], ?_⟩
  intro render2 t2 hne hp
  exact ⟨by simp [loadPastedConfig, hne, hp], by simp [loadPastedConfig, hne, hp]⟩

/-- Witness for C9: pasting `" \n\t "` is a no-op with nothing shown, while
pasting `nope` shows the inline error. -/
theorem c9_witness :
    jsTrim " \n\t " = "" ∧
    (loadPastedConfig (fun _ => Except.ok ()) " \n\t ").parseAttempted = false ∧
    (loadPastedConfig (fun _ => Except.ok ()) " \n\t ").shownError = none ∧
    (loadPastedConfig (fun _ => Except.ok ()) "nope").shownError = some "Invalid JSON text" := by
  have h := c9_whitespace_paste_noop (fun _ => Except.ok ()) " \n\t " (by rfl)
  exact ⟨by rfl, h.1, h.2.1, (h.2.2.2.2 (fun _ => Except.ok ()) "nope" (by decide) (by rfl)).1⟩

/-- Claim C10: an embedded default that is any JavaScript-falsy JSON value is
treated as absent at runtime — the resolver skips it, never constructs the
engine, and shows the setup screen — even though `null`, `false`, `0` and `""`
are all syntactically valid JSON accepted by the build-time validation. -/
theorem c10_falsy_embed_skipped (render : Json → Except String Unit)
    (fetch : String → Option FetchResp) (d : Json) (hf : jsTruthy d = false) :
    (autoLoad render none fetch d).finalState = BState.setupVisible ∧
    (autoLoad render none fetch d).engineConfig = none ∧
    (autoLoad render none fetch d).embeddedUsed = false ∧
    jsTruthy Json.null = false ∧
    jsTruthy (Json.bool false) = false ∧
    jsTruthy (Json.num 0 [] 0) = false ∧
    jsTruthy (Json.str "") = false ∧
    jsonParse "null" = some Json.null ∧
    jsonParse "false" = some (Json.bool false) ∧
    jsonParse "0" = some (Json.num 0 [] 0) ∧
    jsonParse "\"\"" = some (Json.str "") := by
  refine ⟨?_, ?_, ?_, rfl, rfl, by rfl, by rfl, by rfl, by rfl, by rfl, by rfl⟩
  all_goals simp [autoLoad, embeddedBranch, hf]

/-- Witness for C10: the embedded default `0` is skipped and the setup screen
shown. -/
theorem c10_witness :
    jsTruthy (Json.num 0 [] 0) = false ∧
    (autoLoad (fun _ => Except.ok ()) none (fun _ => none) (Json.num 0 [] 0)).finalState
      = BState.setupVisible ∧
    (autoLoad (fun _ => Except.ok ()) none (fun _ => none) (Json.num 0 [] 0)).embeddedUsed
      = false := by
  have h := c10_falsy_embed_skipped (fun _ => Except.ok ()) (fun _ => none)
    (Json.num 0 [] 0) (by rfl)
  exact ⟨by rfl, h.1, h.2.2.1⟩
